import Mathlib

/-!
Shallow embedding of the bod-diagnostics compliance-scoring engine.

The definitions below are translated from the repository's Python sources:

* `src/bod_diagnostics/_utils.py` (`convert_booleans`)
* `src/bod_diagnostics/report_parsers.py` (`HTTPSReport`, `TrustymailReport`)
* `src/bod_diagnostics/trustymail.py` (`parse_csv`, the superseded
  function version of the trustymail funnel)
* `src/bod_diagnostics/pshtt.py` (`parse_csv`, the superseded function
  version of the HTTPS scoring)
* `src/bod_diagnostics/parsers/trustymail_report.py` (the superseded class
  version of the trustymail funnel)
* `src/bod_diagnostics/cli.py` (`main`, the row loop)

Python machine-level details are modelled explicitly: string-typed CSV
cells that `convert_booleans` may turn into real booleans are a sum type
`CellVal`; dictionary lookups that can raise `KeyError` return
`Except String`, with the error value holding the missing key exactly as a
Python `KeyError` does; Python truthiness of a cell is the `truthy`
function; in-place mutation of the row dictionary is modelled by returning
the argument's post-state alongside the return value.
-/

namespace BodDiagnostics

/-- Splitting a character list at every comma, accumulating the current
piece in reverse: the recursion behind `pySplitComma`. -/
def splitCommaAux : List Char → List Char → List (List Char)
  | [], acc => [acc.reverse]
  | c :: rest, acc =>
      if c = ',' then acc.reverse :: splitCommaAux rest []
      else splitCommaAux rest (c :: acc)

/-- Python `s.split(",")`: the pieces between commas, in order; an input
without commas yields the one-element list containing it. -/
def pySplitComma (s : String) : List String :=
  (splitCommaAux s.data []).map (fun l => ⟨l⟩)

/-- Python `s.strip()`: remove leading and trailing whitespace. -/
def pyStrip (s : String) : String :=
  ⟨((s.data.dropWhile Char.isWhitespace).reverse.dropWhile
      Char.isWhitespace).reverse⟩

/-- Python `s.lower()`: lower-case every character. -/
def pyLower (s : String) : String :=
  ⟨s.data.map Char.toLower⟩

/-- A value held in a CSV row cell: the raw string from `csv.DictReader`,
or the Python boolean that `_utils.convert_booleans` substitutes for the
strings "true"/"false" (case-insensitively, after stripping). A Python
`None` cell is modelled as `Option.none` around this type. -/
inductive CellVal where
  | str (s : String)
  | bool (b : Bool)
deriving DecidableEq, Repr

/-- Python truthiness of a cell value: `None` is falsy, a string is truthy
iff non-empty, a boolean is itself. -/
def truthy : Option CellVal → Bool
  | none => false
  | some (CellVal.str s) => !(s == "")
  | some (CellVal.bool b) => b

/-- Python `==` between a cell value and a string literal: only a string
cell can compare equal (a bool or `None` compared to a string is `False`). -/
def pyEqStr : Option CellVal → String → Bool
  | some (CellVal.str s), t => s == t
  | _, _ => false

/-- Using a cell value where a string method (`.lower()`, `.split(",")`) is
called: a bool or `None` raises `AttributeError`. -/
def asStr : Option CellVal → Except String String
  | some (CellVal.str s) => Except.ok s
  | _ => Except.error "AttributeError"

/-- Conversion of one cell by `_utils.convert_booleans`: `None` is skipped;
a string equal to "true"/"false" after `.strip().lower()` becomes the
boolean; any other string is left unchanged. Calling `.strip()` on a value
that is already a boolean raises `AttributeError`. -/
def convertCell : Option CellVal → Except String (Option CellVal)
  | none => Except.ok none
  | some (CellVal.str s) =>
      Except.ok
        (if pyLower (pyStrip s) == "true" then some (CellVal.bool true)
         else if pyLower (pyStrip s) == "false" then some (CellVal.bool false)
         else some (CellVal.str s))
  | some (CellVal.bool _) => Except.error "AttributeError"

/-- The `for k, v in row.items()` loop of `_utils.convert_booleans`,
visiting the entries in order. -/
def convertCells : List (String × Option CellVal) →
    Except String (List (String × Option CellVal))
  | [] => Except.ok []
  | p :: rest => do
      let v ← convertCell p.2
      let tail ← convertCells rest
      Except.ok ((p.1, v) :: tail)

/-- Embedding of `_utils.convert_booleans`. The Python function assigns
`row[k] = True/False` on the caller's dictionary and then returns that same
dictionary, so the call is modelled as producing the pair
(argument's post-state, return value); the two components coincide. -/
def convert_booleans (row : List (String × Option CellVal)) :
    Except String (List (String × Option CellVal) × List (String × Option CellVal)) := do
  let c ← convertCells row
  Except.ok (c, c)

/-- True iff a cell value is a string or `None`, the shapes produced by
`csv.DictReader` (the domain on which `convert_booleans` cannot raise). -/
def isStrOrNone : Option CellVal → Bool
  | none => true
  | some (CellVal.str _) => true
  | some (CellVal.bool _) => false

/-- Pure description of the per-cell conversion on string-or-`None`
cells, used to state what `convert_booleans` computes. -/
def convertCellSpec : Option CellVal → Option CellVal
  | none => none
  | some (CellVal.str s) =>
      if pyLower (pyStrip s) == "true" then some (CellVal.bool true)
      else if pyLower (pyStrip s) == "false" then some (CellVal.bool false)
      else some (CellVal.str s)
  | some (CellVal.bool b) => some (CellVal.bool b)

/-- Pure row-level conversion: keys untouched, every value converted. -/
def convertRowSpec (row : List (String × Option CellVal)) :
    List (String × Option CellVal) :=
  row.map (fun p => (p.1, convertCellSpec p.2))

/-- Python dictionary lookup `row[k]`: the value when the key is present,
otherwise a `KeyError` whose payload is the key itself. -/
def dictGet (row : List (String × Option CellVal)) (k : String) :
    Except String (Option CellVal) :=
  match row.find? (fun p => p.1 == k) with
  | some p => Except.ok p.2
  | none => Except.error k

/-- Decidable success test for an `Except` computation. -/
def isOkE {ε α : Type} : Except ε α → Bool
  | Except.ok _ => true
  | Except.error _ => false

/-- The funnel counters of the trustymail scorers. Python keeps them in a
`defaultdict(lambda: 0)` keyed by the fixed stage names that appear
literally in the source; we give each of those keys a field, defaulting
to zero. -/
@[ext]
structure Counters where
  total_domains : Nat := 0
  domains_checked : Nat := 0
  domains_skipped : Nat := 0
  smtp_valid : Nat := 0
  smtp_invalid : Nat := 0
  spf_covered : Nat := 0
  spf_not_covered : Nat := 0
  no_weak_crypto : Nat := 0
  has_weak_crypto : Nat := 0
  dmarc_valid : Nat := 0
  dmarc_invalid : Nat := 0
  bod_compliant : Nat := 0
  bod_failed : Nat := 0
deriving DecidableEq, Repr

/-- The all-zero counter table of a fresh scorer instance. -/
def Counters.zero : Counters := {}

/-- Pointwise sum of two counter tables. -/
def addCounters (c d : Counters) : Counters where
  total_domains := c.total_domains + d.total_domains
  domains_checked := c.domains_checked + d.domains_checked
  domains_skipped := c.domains_skipped + d.domains_skipped
  smtp_valid := c.smtp_valid + d.smtp_valid
  smtp_invalid := c.smtp_invalid + d.smtp_invalid
  spf_covered := c.spf_covered + d.spf_covered
  spf_not_covered := c.spf_not_covered + d.spf_not_covered
  no_weak_crypto := c.no_weak_crypto + d.no_weak_crypto
  has_weak_crypto := c.has_weak_crypto + d.has_weak_crypto
  dmarc_valid := c.dmarc_valid + d.dmarc_valid
  dmarc_invalid := c.dmarc_invalid + d.dmarc_invalid
  bod_compliant := c.bod_compliant + d.bod_compliant
  bod_failed := c.bod_failed + d.bod_failed

/-- A trustymail CSV row after normalization, restricted to the fields the
funnel reads, with the boolean-valued scanner fields already converted to
booleans and the policy fields kept as strings (the shape the scorers see
on well-formed scanner output). -/
structure TrustymailRow where
  domain : String
  isBaseDomain : Bool
  validDMARCField : Bool
  validDMARCBase : Bool
  dmarcPolicy : String
  dmarcSubdomainPolicy : String
  dmarcPolicyPercentage : String
  validSPF : Bool
  spfRecord : Bool
  supportsSMTP : Bool
  supportsSTARTTLS : Bool
  supportsWeakCrypto : Bool
  dmarcAggregateReportURIs : String
deriving DecidableEq, Repr

namespace Trustymail

/-- The fixed BOD 18-01 reporting address (`bod_rua_url` in the source). -/
def bod_rua_url : String := "mailto:reports@dmarc.cyber.dhs.gov"

/-- Derived value `valid_dmarc` of the funnel (identical in
`trustymail.py`, `report_parsers.py` and `parsers/trustymail_report.py`):
"Valid DMARC" or "Valid DMARC Record on Base Domain". -/
def valid_dmarc (r : TrustymailRow) : Bool :=
  r.validDMARCField || r.validDMARCBase

/-- Derived value `valid_dmarc_policy_reject`. -/
def valid_dmarc_policy_reject (r : TrustymailRow) : Bool :=
  valid_dmarc r && (r.dmarcPolicy == "reject")

/-- Derived value `valid_dmarc_subdomain_policy_reject`. -/
def valid_dmarc_subdomain_policy_reject (r : TrustymailRow) : Bool :=
  valid_dmarc r && (!r.isBaseDomain || (r.dmarcSubdomainPolicy == "reject"))

/-- Derived value `valid_dmarc_policy_pct`. -/
def valid_dmarc_policy_pct (r : TrustymailRow) : Bool :=
  valid_dmarc r && (r.dmarcPolicyPercentage == "100")

/-- Derived value `valid_dmarc_policy_of_reject`. -/
def valid_dmarc_policy_of_reject (r : TrustymailRow) : Bool :=
  valid_dmarc_policy_reject r && valid_dmarc_subdomain_policy_reject r &&
    valid_dmarc_policy_pct r

/-- Derived value `spf_covered`. -/
def spf_covered (r : TrustymailRow) : Bool :=
  if r.isBaseDomain then r.validSPF
  else r.validSPF || (!r.spfRecord && valid_dmarc_policy_of_reject r)

/-- The comma-split, stripped, lower-cased report-URI list
(`[u.strip().lower() for u in row["DMARC Aggregate Report URIs"].split(",")]`). -/
def rua_urls (r : TrustymailRow) : List String :=
  (pySplitComma r.dmarcAggregateReportURIs).map (fun u => pyLower (pyStrip u))

/-- Derived value `valid_dmarc_bod1801_rua_url`: initialised to `False`,
set to `True` only when `valid_dmarc` holds and the fixed address is a
member of the parsed URI list. -/
def valid_dmarc_bod1801_rua_url (r : TrustymailRow) : Bool :=
  if valid_dmarc r then (rua_urls r).contains bod_rua_url else false

end Trustymail

namespace TrustymailReport

open Trustymail

/-- The dictionary appended to `self._failed_domains` by
`report_parsers.TrustymailReport.parse_row` on the `dmarc_invalid` branch
(`{"domain": ..., "result": {...}}` flattened into one record). -/
structure FailureRecord where
  domain : String
  baseDomain : Bool
  validDMARC : Bool
  dmarcPolicy : String
  dmarcSubdomainPolicy : String
  dmarcPolicyPercentage : String
  conditions : List Bool
  ruaURLs : List String
deriving DecidableEq, Repr

/-- The mutable attributes of a `report_parsers.TrustymailReport`
instance that `parse_row` touches. -/
structure State where
  domains : List String
  counts : Counters
  failedDomains : List FailureRecord
deriving DecidableEq, Repr

/-- A fresh instance: `__init__` lower-cases the provided filter list and
starts with empty counters and an empty failure list. -/
def init (domains : List String) : State where
  domains := domains.map pyLower
  counts := Counters.zero
  failedDomains := []

/-- The record built on the `dmarc_invalid` branch. -/
def mkFailureRecord (r : TrustymailRow) : FailureRecord where
  domain := r.domain
  baseDomain := r.isBaseDomain
  validDMARC := valid_dmarc r
  dmarcPolicy := r.dmarcPolicy
  dmarcSubdomainPolicy := r.dmarcSubdomainPolicy
  dmarcPolicyPercentage := r.dmarcPolicyPercentage
  conditions := [valid_dmarc_policy_reject r,
    valid_dmarc_subdomain_policy_reject r, valid_dmarc_policy_pct r]
  ruaURLs := rua_urls r

/-- Embedding of `report_parsers.TrustymailReport.parse_row` on a
normalized row: the domain filter, then the nested-if funnel, mirroring
the source's branch structure and counter increments. Note that the
`bod_failed` branch only increments its counter; only the `dmarc_invalid`
branch appends to `self._failed_domains`. -/
def parse_row (s : State) (r : TrustymailRow) : State :=
  if !s.domains.isEmpty && !(s.domains.contains (pyLower r.domain)) then s
  else
    let c := { s.counts with total_domains := s.counts.total_domains + 1 }
    if r.isBaseDomain || (!r.isBaseDomain && r.supportsSMTP) then
      let c := { c with domains_checked := c.domains_checked + 1 }
      if (r.supportsSMTP && r.supportsSTARTTLS) || !r.supportsSMTP then
        let c := { c with smtp_valid := c.smtp_valid + 1 }
        if spf_covered r then
          let c := { c with spf_covered := c.spf_covered + 1 }
          if !r.supportsWeakCrypto then
            let c := { c with no_weak_crypto := c.no_weak_crypto + 1 }
            if valid_dmarc_policy_of_reject r then
              let c := { c with dmarc_valid := c.dmarc_valid + 1 }
              if valid_dmarc_bod1801_rua_url r then
                { s with counts :=
                    { c with bod_compliant := c.bod_compliant + 1 } }
              else
                { s with counts := { c with bod_failed := c.bod_failed + 1 } }
            else
              { s with
                counts := { c with dmarc_invalid := c.dmarc_invalid + 1 },
                failedDomains := s.failedDomains ++ [mkFailureRecord r] }
          else
            { s with counts :=
                { c with has_weak_crypto := c.has_weak_crypto + 1 } }
        else
          { s with counts :=
              { c with spf_not_covered := c.spf_not_covered + 1 } }
      else
        { s with counts := { c with smtp_invalid := c.smtp_invalid + 1 } }
    else
      { s with counts :=
          { c with domains_skipped := c.domains_skipped + 1 } }

/-- Feeding a sequence of rows to one instance, as the CLI's row loop does. -/
def parse_rows (s : State) (rows : List TrustymailRow) : State :=
  rows.foldl parse_row s

end TrustymailReport

namespace TrustymailPy

open Trustymail

/-- An entry of a `failed_domains` bucket in `trustymail.py`:
`{"domain": ..., "message": [...]}`. -/
structure FailEntry where
  domain : String
  message : List String
deriving DecidableEq, Repr

/-- The accumulator of `trustymail.py parse_csv`: the counter table and
the two failure buckets ("invalid_dmarc" and "invalid_rua"); the fixed
bucket titles are not part of the mutable data. -/
structure State where
  domains : List String
  counts : Counters
  invalidDmarc : List FailEntry
  invalidRua : List FailEntry
deriving DecidableEq, Repr

/-- The state at the top of `trustymail.py parse_csv`, after the filter
list has been lower-cased: zero counters, empty buckets. -/
def init (domains : List String) : State where
  domains := domains.map pyLower
  counts := Counters.zero
  invalidDmarc := []
  invalidRua := []

/-- Python `str` of a boolean, as interpolated by the f-strings. -/
def pyStrBool (b : Bool) : String := if b then "True" else "False"

/-- The message lines built on the `bod_failed` branch of
`trustymail.py parse_csv`: a header line then one indented line per
parsed report URI. -/
def ruaMessage (r : TrustymailRow) : List String :=
  "\tRUA URLs:" :: (rua_urls r).map (fun u => "\t\t" ++ u)

/-- The message lines built on the `dmarc_invalid` branch of
`trustymail.py parse_csv`. -/
def dmarcMessage (r : TrustymailRow) : List String :=
  [ "\tBase Domain: " ++ pyStrBool r.isBaseDomain,
    "\tValid DMARC: " ++ pyStrBool (valid_dmarc r),
    "\tDMARC Policy: \"" ++ r.dmarcPolicy ++ "\"",
    "\tDMARC Subdomain Policy: \"" ++ r.dmarcSubdomainPolicy ++ "\"",
    "\tDMARC Policy Percentage: " ++ r.dmarcPolicyPercentage,
    "\tConditions (Must be True):",
    "\t\tValid DMARC and Policy == \"reject\": " ++
      pyStrBool (valid_dmarc_policy_reject r),
    "\t\tValid DMARC and (not Base Domain or Subdomain Policy == \"reject\"): " ++
      pyStrBool (valid_dmarc_subdomain_policy_reject r),
    "\t\tValid DMARC and Policy Percentage == 100: " ++
      pyStrBool (valid_dmarc_policy_pct r) ]

/-- Embedding of one iteration of the row loop of
`trustymail.py parse_csv` on a normalized row. It differs from
`TrustymailReport.parse_row` exactly where the source does: the
`bod_failed` branch appends a record to the "invalid_rua" bucket, and the
`dmarc_invalid` branch appends its record to the "invalid_dmarc" bucket. -/
def parse_row (s : State) (r : TrustymailRow) : State :=
  if !s.domains.isEmpty && !(s.domains.contains (pyLower r.domain)) then s
  else
    let c := { s.counts with total_domains := s.counts.total_domains + 1 }
    if r.isBaseDomain || (!r.isBaseDomain && r.supportsSMTP) then
      let c := { c with domains_checked := c.domains_checked + 1 }
      if (r.supportsSMTP && r.supportsSTARTTLS) || !r.supportsSMTP then
        let c := { c with smtp_valid := c.smtp_valid + 1 }
        if spf_covered r then
          let c := { c with spf_covered := c.spf_covered + 1 }
          if !r.supportsWeakCrypto then
            let c := { c with no_weak_crypto := c.no_weak_crypto + 1 }
            if valid_dmarc_policy_of_reject r then
              let c := { c with dmarc_valid := c.dmarc_valid + 1 }
              if valid_dmarc_bod1801_rua_url r then
                { s with counts :=
                    { c with bod_compliant := c.bod_compliant + 1 } }
              else
                { s with
                  counts := { c with bod_failed := c.bod_failed + 1 },
                  invalidRua := s.invalidRua ++
                    [{ domain := r.domain, message := ruaMessage r }] }
            else
              { s with
                counts := { c with dmarc_invalid := c.dmarc_invalid + 1 },
                invalidDmarc := s.invalidDmarc ++
                  [{ domain := r.domain, message := dmarcMessage r }] }
          else
            { s with counts :=
                { c with has_weak_crypto := c.has_weak_crypto + 1 } }
        else
          { s with counts :=
              { c with spf_not_covered := c.spf_not_covered + 1 } }
      else
        { s with counts := { c with smtp_invalid := c.smtp_invalid + 1 } }
    else
      { s with counts :=
          { c with domains_skipped := c.domains_skipped + 1 } }

end TrustymailPy

namespace TrustymailDict

/-- The failure record of `report_parsers.TrustymailReport.parse_row`
with the raw cell values it stores, for the dictionary-level embedding. -/
structure DFailureRecord where
  domain : Option CellVal
  baseDomain : Option CellVal
  validDMARC : Option CellVal
  dmarcPolicy : Option CellVal
  dmarcSubdomainPolicy : Option CellVal
  dmarcPolicyPercentage : Option CellVal
  conditions : List (Option CellVal)
  ruaURLs : List String
deriving DecidableEq, Repr

/-- Instance state for the dictionary-level embedding of
`report_parsers.TrustymailReport`. -/
structure DState where
  domains : List String
  counts : Counters
  failedDomains : List DFailureRecord
deriving DecidableEq, Repr

/-- A fresh instance for the dictionary-level embedding. -/
def init (domains : List String) : DState where
  domains := domains.map pyLower
  counts := Counters.zero
  failedDomains := []

/-- Dictionary-level embedding of
`report_parsers.TrustymailReport.parse_row`: the row is an arbitrary
Python dictionary, every `csv_row[...]` is a `dictGet` that can raise
`KeyError` (carrying the key), and Python's short-circuit `and`/`or` is
transcribed literally, including its value (not bool) results and the
repeated reads the source performs. A raised error aborts the call. -/
def parse_rowE (s : DState) (row : List (String × Option CellVal)) :
    Except String DState := do
  let skip ←
    if s.domains.isEmpty then pure false
    else do
      let d ← dictGet row "Domain"
      let dstr ← asStr d
      pure (!(s.domains.contains (pyLower dstr)))
  if skip then pure s
  else do
    let pair ← convert_booleans row
    let row := pair.2
    let c0 := { s.counts with total_domains := s.counts.total_domains + 1 }
    let vd1 ← dictGet row "Valid DMARC"
    let valid_dmarc ←
      if truthy vd1 then pure vd1
      else dictGet row "Valid DMARC Record on Base Domain"
    let valid_dmarc_policy_reject ←
      if truthy valid_dmarc then do
        let p ← dictGet row "DMARC Policy"
        pure (some (CellVal.bool (pyEqStr p "reject")))
      else pure valid_dmarc
    let valid_dmarc_subdomain_policy_reject ←
      if truthy valid_dmarc then do
        let b ← dictGet row "Domain Is Base Domain"
        if !truthy b then pure (some (CellVal.bool true))
        else do
          let sp ← dictGet row "DMARC Subdomain Policy"
          pure (some (CellVal.bool (pyEqStr sp "reject")))
      else pure valid_dmarc
    let valid_dmarc_policy_pct ←
      if truthy valid_dmarc then do
        let pct ← dictGet row "DMARC Policy Percentage"
        pure (some (CellVal.bool (pyEqStr pct "100")))
      else pure valid_dmarc
    let valid_dmarc_policy_of_reject :=
      if !truthy valid_dmarc_policy_reject then valid_dmarc_policy_reject
      else if !truthy valid_dmarc_subdomain_policy_reject then
        valid_dmarc_subdomain_policy_reject
      else valid_dmarc_policy_pct
    let bd ← dictGet row "Domain Is Base Domain"
    let spf_covered ←
      if truthy bd then dictGet row "Valid SPF"
      else do
        let vs ← dictGet row "Valid SPF"
        if truthy vs then pure vs
        else do
          let sr ← dictGet row "SPF Record"
          if !truthy sr then pure valid_dmarc_policy_of_reject
          else pure (some (CellVal.bool false))
    let rua_ok ←
      if truthy valid_dmarc then do
        let uris ← dictGet row "DMARC Aggregate Report URIs"
        let ustr ← asStr uris
        pure (((pySplitComma ustr).map (fun u => pyLower (pyStrip u))).contains
          Trustymail.bod_rua_url)
      else pure false
    let elig ← do
      let b1 ← dictGet row "Domain Is Base Domain"
      if truthy b1 then pure true
      else do
        let b2 ← dictGet row "Domain Is Base Domain"
        if truthy b2 then pure false
        else do
          let sm ← dictGet row "Domain Supports SMTP"
          pure (truthy sm)
    if elig then
      let c1 := { c0 with domains_checked := c0.domains_checked + 1 }
      let smtpOk ← do
        let sm ← dictGet row "Domain Supports SMTP"
        if truthy sm then do
          let st ← dictGet row "Domain Supports STARTTLS"
          if truthy st then pure true
          else do
            let sm2 ← dictGet row "Domain Supports SMTP"
            pure (!truthy sm2)
        else do
          let sm2 ← dictGet row "Domain Supports SMTP"
          pure (!truthy sm2)
      if smtpOk then
        let c2 := { c1 with smtp_valid := c1.smtp_valid + 1 }
        if truthy spf_covered then
          let c3 := { c2 with spf_covered := c2.spf_covered + 1 }
          let wc ← dictGet row "Domain Supports Weak Crypto"
          if !truthy wc then
            let c4 := { c3 with no_weak_crypto := c3.no_weak_crypto + 1 }
            if truthy valid_dmarc_policy_of_reject then
              let c5 := { c4 with dmarc_valid := c4.dmarc_valid + 1 }
              if rua_ok then
                pure { s with counts :=
                  { c5 with bod_compliant := c5.bod_compliant + 1 } }
              else
                pure { s with counts :=
                  { c5 with bod_failed := c5.bod_failed + 1 } }
            else
              let c5 := { c4 with dmarc_invalid := c4.dmarc_invalid + 1 }
              let rbd ← dictGet row "Domain Is Base Domain"
              let rp ← dictGet row "DMARC Policy"
              let rsp ← dictGet row "DMARC Subdomain Policy"
              let rpct ← dictGet row "DMARC Policy Percentage"
              let ruris ← dictGet row "DMARC Aggregate Report URIs"
              let rustr ← asStr ruris
              let rdom ← dictGet row "Domain"
              pure { s with
                counts := c5
                failedDomains := s.failedDomains ++
                  [{ domain := rdom, baseDomain := rbd,
                     validDMARC := valid_dmarc, dmarcPolicy := rp,
                     dmarcSubdomainPolicy := rsp,
                     dmarcPolicyPercentage := rpct,
                     conditions := [valid_dmarc_policy_reject,
                       valid_dmarc_subdomain_policy_reject,
                       valid_dmarc_policy_pct],
                     ruaURLs := (pySplitComma rustr).map
                       (fun u => pyLower (pyStrip u)) }] }
          else
            pure { s with counts :=
              { c3 with has_weak_crypto := c3.has_weak_crypto + 1 } }
        else
          pure { s with counts :=
            { c2 with spf_not_covered := c2.spf_not_covered + 1 } }
      else
        pure { s with counts :=
          { c1 with smtp_invalid := c1.smtp_invalid + 1 } }
    else
      pure { s with counts :=
        { c0 with domains_skipped := c0.domains_skipped + 1 } }

/-- The CLI's row loop (`for row in csv_reader: parser.parse_row(row)`
inside `try`): rows are processed in order and the first raised error ends
the loop, to be caught and logged by `main`'s `except` clause — no later
row is processed. -/
def runRowsE (s : DState) :
    List (List (String × Option CellVal)) → Except String DState
  | [] => Except.ok s
  | r :: rest => (parse_rowE s r).bind (fun s2 => runRowsE s2 rest)

end TrustymailDict

/-- An HTTPS-report CSV row after normalization, restricted to the fields
`HTTPSReport.parse_row` reads, with the scanner's boolean fields already
converted. -/
structure HTTPSRow where
  domain : String
  live : Bool
  baseDomainHSTSPreloaded : Bool
  domainSupportsHTTPS : Bool
  domainEnforcesHTTPS : Bool
  domainUsesStrongHSTS : Bool
deriving DecidableEq, Repr

/-- Python dictionary assignment `d[k] = v` on an insertion-ordered
dictionary: overwrite in place when the key is present, append otherwise. -/
def storeUpdate {α : Type} : List (String × α) → String → α → List (String × α)
  | [], k, v => [(k, v)]
  | (k2, v2) :: rest, k, v =>
      if k2 = k then (k2, v) :: rest else (k2, v2) :: storeUpdate rest k v

/-- Python dictionary lookup returning `none` when the key is absent. -/
def lookupStore {α : Type} (l : List (String × α)) (k : String) : Option α :=
  match l.find? (fun p => p.1 = k) with
  | some p => some p.2
  | none => none

namespace HTTPSReport

/-- Derived value `domain_fallback_check` of
`report_parsers.HTTPSReport.parse_row`:
`csv_row["Live"] and csv_row["Base Domain HSTS Preloaded"]`. -/
def domain_fallback_check (r : HTTPSRow) : Bool :=
  r.live && r.baseDomainHSTSPreloaded

/-- First entry of the "Scores" list: "Uses HTTPS". -/
def uses_https (r : HTTPSRow) : Bool :=
  r.domainSupportsHTTPS || domain_fallback_check r

/-- Second entry of the "Scores" list: "Enforces HTTPS". -/
def enforces_https (r : HTTPSRow) : Bool :=
  r.domainEnforcesHTTPS || domain_fallback_check r

/-- Third entry of the "Scores" list: "Uses Strong HSTS". -/
def uses_strong_hsts (r : HTTPSRow) : Bool :=
  r.domainUsesStrongHSTS || domain_fallback_check r

/-- Fourth entry of the "Scores" list: "BOD 18-01 Web Compliance". -/
def bod_web_compliance (r : HTTPSRow) : Bool :=
  (r.domainSupportsHTTPS && r.domainEnforcesHTTPS && r.domainUsesStrongHSTS) ||
    domain_fallback_check r

/-- The `result_dict` stored per domain by
`report_parsers.HTTPSReport.parse_row`: the five raw fields and the
ordered "Scores" list. -/
structure Result where
  live : Bool
  baseDomainHSTSPreloaded : Bool
  domainSupportsHTTPS : Bool
  domainEnforcesHTTPS : Bool
  domainUsesStrongHSTS : Bool
  scores : List Bool
deriving DecidableEq, Repr

/-- The `result_dict` computed for one row. -/
def score_row (r : HTTPSRow) : Result where
  live := r.live
  baseDomainHSTSPreloaded := r.baseDomainHSTSPreloaded
  domainSupportsHTTPS := r.domainSupportsHTTPS
  domainEnforcesHTTPS := r.domainEnforcesHTTPS
  domainUsesStrongHSTS := r.domainUsesStrongHSTS
  scores := [uses_https r, enforces_https r, uses_strong_hsts r,
    bod_web_compliance r]

/-- The mutable attributes of a `report_parsers.HTTPSReport` instance
that `parse_row` touches: the lower-cased filter and the `_results`
dictionary keyed by lower-cased domain. -/
structure State where
  domains : List String
  results : List (String × Result)
deriving DecidableEq, Repr

/-- A fresh instance: `__init__` lower-cases the filter and starts with an
empty results dictionary. -/
def init (domains : List String) : State where
  domains := domains.map pyLower
  results := []

/-- Embedding of `report_parsers.HTTPSReport.parse_row` on a normalized
row: domain filter, then
`self._results[csv_row["Domain"].lower()] = result_dict`. -/
def parse_row (s : State) (r : HTTPSRow) : State :=
  if !s.domains.isEmpty && !(s.domains.contains (pyLower r.domain)) then s
  else { s with
    results := storeUpdate s.results (pyLower r.domain) (score_row r) }

/-- Feeding a sequence of rows to one instance, as the CLI's row loop does. -/
def parse_rows (s : State) (rows : List HTTPSRow) : State :=
  rows.foldl parse_row s

/-- The domain-filter acceptance test of `parse_row` as a boolean:
accepted iff the filter list is empty or contains the lower-cased domain. -/
def includedB (domains : List String) (r : HTTPSRow) : Bool :=
  domains.isEmpty || domains.contains (pyLower r.domain)

end HTTPSReport

namespace Pshtt

/-- Derived value `domain_fallback_check` of `pshtt.py parse_csv`. -/
def domain_fallback_check (r : HTTPSRow) : Bool :=
  r.live && r.baseDomainHSTSPreloaded

/-- Derived value `domain_uses_https` of `pshtt.py parse_csv`. -/
def domain_uses_https (r : HTTPSRow) : Bool :=
  r.domainSupportsHTTPS || domain_fallback_check r

/-- Derived value `domain_enforces_https` of `pshtt.py parse_csv`. -/
def domain_enforces_https (r : HTTPSRow) : Bool :=
  r.domainEnforcesHTTPS || domain_fallback_check r

/-- Derived value `domain_uses_strong_hsts` of `pshtt.py parse_csv`. -/
def domain_uses_strong_hsts (r : HTTPSRow) : Bool :=
  r.domainUsesStrongHSTS || domain_fallback_check r

/-- The compliance classification of `pshtt.py parse_csv`: the row is
compliant exactly when the failure-recording branch guarded by
`if not (domain_uses_https and domain_enforces_https and
domain_uses_strong_hsts)` is not taken. -/
def compliant (r : HTTPSRow) : Bool :=
  domain_uses_https r && domain_enforces_https r && domain_uses_strong_hsts r

end Pshtt

namespace ParsersTrustymail

/-- One entry of a failure bucket in `parsers/trustymail_report.py`. -/
structure FailEntry where
  domain : String
  message : List String
deriving DecidableEq, Repr

/-- The two failure buckets with their titles, as built by
`parsers/trustymail_report.py TrustymailReport.__init__`. -/
structure Buckets where
  invalidDmarcTitle : String
  invalidDmarc : List FailEntry
  invalidRuaTitle : String
  invalidRua : List FailEntry
deriving DecidableEq, Repr

/-- The instance attributes of the superseded
`parsers/trustymail_report.py TrustymailReport`; each is `none` until the
corresponding `self.__... = ...` assignment in `__init__` has run. -/
structure Attrs where
  domains : Option (List String)
  countValues : Option Counters
  failedDomains : Option Buckets
  bodRuaUrl : Option String

/-- Reading an instance attribute: accessing one that has not been
assigned yet raises `AttributeError`. -/
def getattr {α : Type} : Option α → Except String α
  | none => Except.error "AttributeError"
  | some a => Except.ok a

/-- The `__failed_domains` value whose "invalid_rua" title interpolates
`self.__bod_rua_url`. -/
def mkBuckets (rua : String) : Buckets where
  invalidDmarcTitle := "Domains With Invalid DMARC Configurations ::"
  invalidDmarc := []
  invalidRuaTitle := "Domains Missing RUA URL \"" ++ rua ++ "\" ::"
  invalidRua := []

/-- Embedding of `parsers/trustymail_report.py TrustymailReport.__init__`,
executing the assignments in source order: `self.__domains` (with the
`domains if domains else []` default and lower-casing), then
`self.__count_values`, then `self.__failed_domains` — whose construction
reads `self.__bod_rua_url` — and only after that the assignment of
`self.__bod_rua_url` itself. -/
def initE (domains : Option (List String)) : Except String Attrs := do
  let ds := match domains with
    | none => []
    | some l => if l.isEmpty then [] else l
  let s1 : Attrs :=
    { domains := some (ds.map pyLower), countValues := none,
      failedDomains := none, bodRuaUrl := none }
  let s2 := { s1 with countValues := some Counters.zero }
  let rua ← getattr s2.bodRuaUrl
  let s3 := { s2 with failedDomains := some (mkBuckets rua) }
  pure { s3 with bodRuaUrl := some "mailto:reports@dmarc.cyber.dhs.gov" }

end ParsersTrustymail

deriving instance DecidableEq for Except

/-- The Scenario A row of the spec: `Domain=foo.gov, Live=true,
Base Domain HSTS Preloaded=false, Domain Supports HTTPS=false,
Domain Enforces HTTPS=true, Domain Uses Strong HSTS=false`. -/
def scenarioARow : HTTPSRow where
  domain := "foo.gov"
  live := true
  baseDomainHSTSPreloaded := false
  domainSupportsHTTPS := false
  domainEnforcesHTTPS := true
  domainUsesStrongHSTS := false

/-- The Scenario C row of the spec: a base domain with fully valid DMARC
reject policy whose aggregate-report URI list is
`mailto:other@example.com` only. -/
def scenarioCRow : TrustymailRow where
  domain := "foo.gov"
  isBaseDomain := true
  validDMARCField := true
  validDMARCBase := false
  dmarcPolicy := "reject"
  dmarcSubdomainPolicy := "reject"
  dmarcPolicyPercentage := "100"
  validSPF := true
  spfRecord := true
  supportsSMTP := true
  supportsSTARTTLS := true
  supportsWeakCrypto := false
  dmarcAggregateReportURIs := "mailto:other@example.com"

/-- A row whose URI list contains the fixed reporting address with mixed
case and padding, as in the spec's case/whitespace-insensitivity example. -/
def mixedCaseRuaRow : TrustymailRow :=
  { scenarioCRow with
    dmarcAggregateReportURIs :=
      "mailto:x@y.gov, Mailto:Reports@DMARC.cyber.dhs.gov " }

/-- Two HTTPS rows whose "Domain" fields differ only in letter case (and
whose other fields differ, so their scores differ). -/
def caseRowUpper : HTTPSRow where
  domain := "Foo.GOV"
  live := true
  baseDomainHSTSPreloaded := true
  domainSupportsHTTPS := false
  domainEnforcesHTTPS := false
  domainUsesStrongHSTS := false

/-- The later row for the duplicate-domain example, lower-case domain and
different field values. -/
def caseRowLower : HTTPSRow where
  domain := "foo.gov"
  live := true
  baseDomainHSTSPreloaded := false
  domainSupportsHTTPS := true
  domainEnforcesHTTPS := false
  domainUsesStrongHSTS := false

/-- A trustymail CSV dictionary that has every required field except
"DMARC Aggregate Report URIs"; its DMARC fields are falsy, so the scorer
never reads the missing field. -/
def rowMissingURIs : List (String × Option CellVal) :=
  [("Domain", some (CellVal.str "foo.gov")),
   ("Domain Is Base Domain", some (CellVal.str "True")),
   ("Valid DMARC", some (CellVal.str "False")),
   ("Valid DMARC Record on Base Domain", some (CellVal.str "False")),
   ("DMARC Policy", some (CellVal.str "")),
   ("DMARC Subdomain Policy", some (CellVal.str "")),
   ("DMARC Policy Percentage", some (CellVal.str "")),
   ("Valid SPF", some (CellVal.str "False")),
   ("SPF Record", some (CellVal.str "False")),
   ("Domain Supports SMTP", some (CellVal.str "False")),
   ("Domain Supports STARTTLS", some (CellVal.str "False")),
   ("Domain Supports Weak Crypto", some (CellVal.str "False"))]

/-- A trustymail CSV dictionary missing the "Valid DMARC" field, the
first field the scorer reads on an unfiltered run. -/
def rowMissingVD : List (String × Option CellVal) :=
  [("Domain", some (CellVal.str "foo.gov")),
   ("Domain Is Base Domain", some (CellVal.str "True"))]

/-- A trustymail CSV dictionary like `rowMissingURIs` (every required
field except "DMARC Aggregate Report URIs", falsy DMARC fields) but with
`Valid SPF=True`, so the funnel passes stages 1-4 and reaches the
`dmarc_invalid` branch, whose record construction reads the missing URI
field. -/
def rowDmarcInvalidMissingURIs : List (String × Option CellVal) :=
  [("Domain", some (CellVal.str "foo.gov")),
   ("Domain Is Base Domain", some (CellVal.str "True")),
   ("Valid DMARC", some (CellVal.str "False")),
   ("Valid DMARC Record on Base Domain", some (CellVal.str "False")),
   ("DMARC Policy", some (CellVal.str "")),
   ("DMARC Subdomain Policy", some (CellVal.str "")),
   ("DMARC Policy Percentage", some (CellVal.str "")),
   ("Valid SPF", some (CellVal.str "True")),
   ("SPF Record", some (CellVal.str "False")),
   ("Domain Supports SMTP", some (CellVal.str "False")),
   ("Domain Supports STARTTLS", some (CellVal.str "False")),
   ("Domain Supports Weak Crypto", some (CellVal.str "False"))]

/-- A row with no valid DMARC at all: both DMARC validity fields false. -/
def noDmarcRow : TrustymailRow :=
  { scenarioCRow with validDMARCField := false, validDMARCBase := false }

/-- The six pairwise-sum equations of the funnel counters: each branch
pair sums to the count that entered its stage. -/
def counterInv (c : Counters) : Prop :=
  c.domains_checked + c.domains_skipped = c.total_domains ∧
  c.smtp_valid + c.smtp_invalid = c.domains_checked ∧
  c.spf_covered + c.spf_not_covered = c.smtp_valid ∧
  c.no_weak_crypto + c.has_weak_crypto = c.spf_covered ∧
  c.dmarc_valid + c.dmarc_invalid = c.no_weak_crypto ∧
  c.bod_compliant + c.bod_failed = c.dmarc_valid

/-! Auxiliary lemmas about the embedded operations. -/

/-- Converting a string-or-`None` cell never raises and follows the pure
description `convertCellSpec`. -/
theorem convertCell_of_strOrNone (v : Option CellVal)
    (h : isStrOrNone v = true) :
    convertCell v = Except.ok (convertCellSpec v) := by
  match v with
  | none => rfl
  | some (CellVal.str s) => rfl
  | some (CellVal.bool b) => simp [isStrOrNone] at h

/-- The conversion loop on a row of string-or-`None` cells. -/
theorem convertCells_of_strOrNone (row : List (String × Option CellVal))
    (h : ∀ p ∈ row, isStrOrNone p.2 = true) :
    convertCells row = Except.ok (convertRowSpec row) := by
  induction row with
  | nil => rfl
  | cons p rest ih =>
      have hp : isStrOrNone p.2 = true := h p (List.mem_cons_self p rest)
      have hr : ∀ q ∈ rest, isStrOrNone q.2 = true :=
        fun q hq => h q (List.mem_cons_of_mem p hq)
      simp [convertCells, convertCell_of_strOrNone p.2 hp, ih hr,
        convertRowSpec, Bind.bind, Except.bind]

/-- On string-or-`None` rows, `convert_booleans` succeeds, mutates the
caller's row to `convertRowSpec row` and returns that same row. -/
theorem convert_booleans_of_strOrNone (row : List (String × Option CellVal))
    (h : ∀ p ∈ row, isStrOrNone p.2 = true) :
    convert_booleans row =
      Except.ok (convertRowSpec row, convertRowSpec row) := by
  simp [convert_booleans, convertCells_of_strOrNone row h, Bind.bind,
    Except.bind]

/-- A key absent before conversion is still absent afterwards. -/
theorem dictGet_convertRowSpec_error (row : List (String × Option CellVal))
    (k : String) (h : row.find? (fun p => p.1 == k) = none) :
    dictGet (convertRowSpec row) k = Except.error k := by
  unfold dictGet
  induction row with
  | nil => rfl
  | cons p rest ih =>
      rw [convertRowSpec, List.map_cons, List.find?_cons] at *
      by_cases hk : (p.1 == k) = true
      · simp [hk] at h
      · simp only [Bool.not_eq_true] at hk
        simp only [hk] at h ⊢
        exact ih h

/-- Keys after a dictionary assignment: the old keys plus the assigned
one. -/
theorem mem_keys_storeUpdate {α : Type} (l : List (String × α)) (k a : String)
    (v : α) :
    a ∈ (storeUpdate l k v).map Prod.fst ↔ a ∈ l.map Prod.fst ∨ a = k := by
  induction l with
  | nil => simp [storeUpdate]
  | cons p rest ih =>
      by_cases hk : p.1 = k
      · subst hk
        simp [storeUpdate]
        tauto
      · simp [storeUpdate, hk, ih]
        tauto

/-- Dictionary assignment preserves key distinctness. -/
theorem nodup_keys_storeUpdate {α : Type} (l : List (String × α)) (k : String)
    (v : α) (h : (l.map Prod.fst).Nodup) :
    ((storeUpdate l k v).map Prod.fst).Nodup := by
  induction l with
  | nil => simp [storeUpdate]
  | cons p rest ih =>
      rw [List.map_cons, List.nodup_cons] at h
      by_cases hk : p.1 = k
      · subst hk
        simpa [storeUpdate, List.nodup_cons] using h
      · rw [storeUpdate, if_neg hk, List.map_cons, List.nodup_cons]
        constructor
        · rw [mem_keys_storeUpdate]
          rintro (hmem | heq)
          · exact h.1 hmem
          · exact hk heq
        · exact ih h.2

/-- Looking up the key just assigned yields the assigned value. -/
theorem lookupStore_storeUpdate_self {α : Type} (l : List (String × α))
    (k : String) (v : α) : lookupStore (storeUpdate l k v) k = some v := by
  induction l with
  | nil => simp [storeUpdate, lookupStore, List.find?]
  | cons p rest ih =>
      by_cases hk : p.1 = k
      · simp [storeUpdate, hk, lookupStore, List.find?]
      · simp [storeUpdate, hk, lookupStore, List.find?] at ih ⊢
        exact ih

/-- One trustymail row preserves the funnel-sum equations: exactly one
branch counter of every reached stage is incremented together with its
parent. -/
theorem counterInv_parse_row (s : TrustymailReport.State) (r : TrustymailRow)
    (h : counterInv s.counts) :
    counterInv (TrustymailReport.parse_row s r).counts := by
  unfold TrustymailReport.parse_row
  unfold counterInv at h ⊢
  repeat' split
  all_goals simp_all
  all_goals omega

/-- The trustymail scorer never changes its domain filter. -/
theorem parse_row_domains (s : TrustymailReport.State) (r : TrustymailRow) :
    (TrustymailReport.parse_row s r).domains = s.domains := by
  unfold TrustymailReport.parse_row
  repeat' split
  all_goals rfl

/-- The counter increments of one row do not depend on the counters
already accumulated. -/
theorem parse_row_counts_add (ds : List String) (c : Counters)
    (f : List TrustymailReport.FailureRecord) (r : TrustymailRow) :
    (TrustymailReport.parse_row ⟨ds, c, f⟩ r).counts =
      addCounters c
        (TrustymailReport.parse_row ⟨ds, Counters.zero, []⟩ r).counts := by
  unfold TrustymailReport.parse_row
  repeat' split
  all_goals simp_all
  all_goals rfl

/-- Pointwise addition of counter tables is associative. -/
theorem addCounters_assoc (a b c : Counters) :
    addCounters (addCounters a b) c = addCounters a (addCounters b c) := by
  ext <;> simp [addCounters] <;> omega

/-- Processing a row sequence is a left fold of `parse_row`. -/
theorem parse_rows_cons (s : TrustymailReport.State) (r : TrustymailRow)
    (rs : List TrustymailRow) :
    TrustymailReport.parse_rows s (r :: rs) =
      TrustymailReport.parse_rows (TrustymailReport.parse_row s r) rs := rfl

/-- The domain filter survives a whole run. -/
theorem parse_rows_domains (s : TrustymailReport.State)
    (rows : List TrustymailRow) :
    (TrustymailReport.parse_rows s rows).domains = s.domains := by
  induction rows generalizing s with
  | nil => rfl
  | cons r rs ih =>
      rw [parse_rows_cons, ih, parse_row_domains]

/-- Restatement of `parse_row_counts_add` for an unstructured state. -/
theorem parse_row_counts_add2 (s : TrustymailReport.State) (r : TrustymailRow) :
    (TrustymailReport.parse_row s r).counts =
      addCounters s.counts
        (TrustymailReport.parse_row ⟨s.domains, Counters.zero, []⟩ r).counts := by
  obtain ⟨ds, c, f⟩ := s
  exact parse_row_counts_add ds c f r

/-- A run's counter increments depend only on the rows and the filter:
running from any state adds exactly what a zero-counter run produces. -/
theorem parse_rows_counts_add (rows : List TrustymailRow)
    (s : TrustymailReport.State) :
    (TrustymailReport.parse_rows s rows).counts =
      addCounters s.counts
        (TrustymailReport.parse_rows ⟨s.domains, Counters.zero, []⟩
          rows).counts := by
  induction rows generalizing s with
  | nil => rfl
  | cons r rs ih =>
      rw [parse_rows_cons, parse_rows_cons]
      rw [ih (TrustymailReport.parse_row s r),
        ih (TrustymailReport.parse_row ⟨s.domains, Counters.zero, []⟩ r)]
      rw [parse_row_domains, parse_row_domains]
      rw [parse_row_counts_add2 s r]
      exact addCounters_assoc s.counts
        (TrustymailReport.parse_row ⟨s.domains, Counters.zero, []⟩ r).counts
        (TrustymailReport.parse_rows ⟨s.domains, Counters.zero, []⟩ rs).counts

/-- The funnel-sum equations hold after any run from a given invariant
state. -/
theorem parse_rows_inv (s : TrustymailReport.State) (rows : List TrustymailRow)
    (h : counterInv s.counts) :
    counterInv (TrustymailReport.parse_rows s rows).counts := by
  induction rows generalizing s with
  | nil => exact h
  | cons r rs ih =>
      rw [parse_rows_cons]
      exact ih _ (counterInv_parse_row s r h)

/-- An accepted row is scored and stored under its lower-cased domain. -/
theorem https_parse_row_included (s : HTTPSReport.State) (r : HTTPSRow)
    (h : HTTPSReport.includedB s.domains r = true) :
    HTTPSReport.parse_row s r =
      { s with results :=
          storeUpdate s.results (pyLower r.domain) (HTTPSReport.score_row r) }
    := by
  have hc : (!s.domains.isEmpty && !(s.domains.contains (pyLower r.domain)))
      = false := by
    rw [HTTPSReport.includedB] at h
    cases hh : s.domains.isEmpty <;> simp_all
  rw [HTTPSReport.parse_row, hc]
  simp

/-- The HTTPS scorer never changes its domain filter. -/
theorem https_parse_row_domains (s : HTTPSReport.State) (r : HTTPSRow) :
    (HTTPSReport.parse_row s r).domains = s.domains := by
  unfold HTTPSReport.parse_row
  split <;> rfl

/-- Processing a row sequence is a left fold of the HTTPS `parse_row`. -/
theorem https_parse_rows_cons (s : HTTPSReport.State) (r : HTTPSRow)
    (rs : List HTTPSRow) :
    HTTPSReport.parse_rows s (r :: rs) =
      HTTPSReport.parse_rows (HTTPSReport.parse_row s r) rs := rfl

/-- The HTTPS domain filter survives a whole run. -/
theorem https_parse_rows_domains (s : HTTPSReport.State)
    (rows : List HTTPSRow) :
    (HTTPSReport.parse_rows s rows).domains = s.domains := by
  induction rows generalizing s with
  | nil => rfl
  | cons r rs ih =>
      rw [https_parse_rows_cons, ih, https_parse_row_domains]

/-- One HTTPS row preserves key distinctness of the result store. -/
theorem https_parse_row_nodup (s : HTTPSReport.State) (r : HTTPSRow)
    (h : ((s.results.map Prod.fst).Nodup)) :
    (((HTTPSReport.parse_row s r).results.map Prod.fst).Nodup) := by
  unfold HTTPSReport.parse_row
  split
  · exact h
  · exact nodup_keys_storeUpdate s.results (pyLower r.domain) _ h

/-- A whole HTTPS run preserves key distinctness of the result store. -/
theorem https_parse_rows_nodup (s : HTTPSReport.State) (rows : List HTTPSRow)
    (h : ((s.results.map Prod.fst).Nodup)) :
    (((HTTPSReport.parse_rows s rows).results.map Prod.fst).Nodup) := by
  induction rows generalizing s with
  | nil => exact h
  | cons r rs ih =>
      rw [https_parse_rows_cons]
      exact ih _ (https_parse_row_nodup s r h)

/-- Membership in a mapped list of strings, as used by the URI test. -/
theorem contains_map_iff (l : List String) (f : String → String) (a : String) :
    ((l.map f).contains a) = true ↔ ∃ u ∈ l, f u = a := by
  rw [List.elem_iff, List.mem_map]

/-! Claim theorems. -/

/-- Claim C1: evaluation of the Scenario C row (stage 6 reached,
`ruaMatches` false) on both trustymail funnels. The active scorer,
`report_parsers.TrustymailReport.parse_row`, increments `bod_failed` but
appends no failure record at all, leaving `_failed_domains` empty, whereas
the predecessor `trustymail.py parse_csv` — which matches the claim —
increments `bod_failed` and appends a record under the "invalid_rua"
bucket carrying the domain name and the parsed URI list
`["mailto:other@example.com"]`. -/
theorem trustymail_rua_failure_record_evaluation :
    ((TrustymailReport.parse_row (TrustymailReport.init [])
        scenarioCRow).counts.bod_failed = 1 ∧
      (TrustymailReport.parse_row (TrustymailReport.init [])
        scenarioCRow).failedDomains = []) ∧
    ((TrustymailPy.parse_row (TrustymailPy.init [])
        scenarioCRow).counts.bod_failed = 1 ∧
      (TrustymailPy.parse_row (TrustymailPy.init [])
        scenarioCRow).invalidRua =
        [{ domain := "foo.gov",
           message := ["\tRUA URLs:", "\t\tmailto:other@example.com"] }]) := by
  decide

/-- Claim C2: after `report_parsers.TrustymailReport` processes any finite
sequence of rows from a fresh instance, each pair of branch counters sums
to its parent stage's count:
`domains_checked + domains_skipped = total_domains`,
`smtp_valid + smtp_invalid = domains_checked`,
`spf_covered + spf_not_covered = smtp_valid`,
`no_weak_crypto + has_weak_crypto = spf_covered`,
`dmarc_valid + dmarc_invalid = no_weak_crypto`, and
`bod_compliant + bod_failed = dmarc_valid`. -/
theorem trustymail_funnel_sums (domains : List String)
    (rows : List TrustymailRow) :
    let c := (TrustymailReport.parse_rows (TrustymailReport.init domains)
      rows).counts
    c.domains_checked + c.domains_skipped = c.total_domains ∧
    c.smtp_valid + c.smtp_invalid = c.domains_checked ∧
    c.spf_covered + c.spf_not_covered = c.smtp_valid ∧
    c.no_weak_crypto + c.has_weak_crypto = c.spf_covered ∧
    c.dmarc_valid + c.dmarc_invalid = c.no_weak_crypto ∧
    c.bod_compliant + c.bod_failed = c.dmarc_valid := by
  exact parse_rows_inv (TrustymailReport.init domains) rows
    (show counterInv Counters.zero from ⟨rfl, rfl, rfl, rfl, rfl, rfl⟩)

/-- Claim C3: for every record accepted by the domain filter, the HTTPS
scorer stores under the lower-cased domain the four scores
`(SupportsHTTPS ∨ fallback, EnforcesHTTPS ∨ fallback,
UsesStrongHSTS ∨ fallback, (SupportsHTTPS ∧ EnforcesHTTPS ∧
UsesStrongHSTS) ∨ fallback)` with `fallback = Live ∧
BaseDomainHSTSPreloaded`; when `Live` and `BaseDomainHSTSPreloaded` are
both true all four scores are true; and the Scenario A row scores
`(false, true, false, false)`. -/
theorem https_scoring_rule :
    (∀ (s : HTTPSReport.State) (r : HTTPSRow),
      HTTPSReport.includedB s.domains r = true →
      lookupStore (HTTPSReport.parse_row s r).results (pyLower r.domain) =
          some (HTTPSReport.score_row r) ∧
        (HTTPSReport.score_row r).scores =
          [r.domainSupportsHTTPS || (r.live && r.baseDomainHSTSPreloaded),
           r.domainEnforcesHTTPS || (r.live && r.baseDomainHSTSPreloaded),
           r.domainUsesStrongHSTS || (r.live && r.baseDomainHSTSPreloaded),
           (r.domainSupportsHTTPS && r.domainEnforcesHTTPS &&
             r.domainUsesStrongHSTS) ||
             (r.live && r.baseDomainHSTSPreloaded)]) ∧
    (∀ r : HTTPSRow, r.live = true → r.baseDomainHSTSPreloaded = true →
      (HTTPSReport.score_row r).scores = [true, true, true, true]) ∧
    (HTTPSReport.score_row scenarioARow).scores = [false, true, false, false]
    := by
  refine ⟨?_, ?_, by decide⟩
  · intro s r h
    rw [https_parse_row_included s r h]
    refine ⟨lookupStore_storeUpdate_self s.results (pyLower r.domain) _, rfl⟩
  · intro r h1 h2
    simp [HTTPSReport.score_row, HTTPSReport.uses_https,
      HTTPSReport.enforces_https, HTTPSReport.uses_strong_hsts,
      HTTPSReport.bod_web_compliance, HTTPSReport.domain_fallback_check,
      h1, h2]

/-- Witness for claim C3 at the Scenario A row on an unfiltered instance. -/
theorem https_scoring_rule_witness :
    HTTPSReport.includedB (HTTPSReport.init []).domains scenarioARow = true ∧
    lookupStore (HTTPSReport.parse_row (HTTPSReport.init [])
        scenarioARow).results (pyLower scenarioARow.domain) =
      some (HTTPSReport.score_row scenarioARow) :=
  ⟨by decide,
    (https_scoring_rule.1 (HTTPSReport.init []) scenarioARow (by decide)).1⟩

/-- Claim C4 counterexample: the claim "every row missing a required
field fails with a MissingFieldError naming the field and the domain" is
false on the code. A row missing the required field "DMARC Aggregate
Report URIs" is scored without any error (short-circuit evaluation never
reads the field when DMARC is invalid), and the failure that a truly read
missing field produces is the bare `KeyError` payload "Valid DMARC",
which names neither a MissingFieldError type nor the row's domain. -/
theorem missing_field_counterexample :
    rowMissingURIs.find? (fun p => p.1 == "DMARC Aggregate Report URIs")
        = none ∧
    isOkE (TrustymailDict.parse_rowE (TrustymailDict.init []) rowMissingURIs)
        = true ∧
    TrustymailDict.parse_rowE (TrustymailDict.init []) rowMissingVD =
      Except.error "Valid DMARC" := by
  decide

/-- Claim C4 as amended: a missing required field raises the host's
`KeyError` naming exactly the missing field (no MissingFieldError type,
no domain), and only when the scoring actually reads that field, which
depends on the row's other values through short-circuit evaluation. On an
unfiltered run over a row of string-or-`None` cells missing
"Valid DMARC" — the first field read — scoring fails with the `KeyError`
"Valid DMARC"; a row reaching the `dmarc_invalid` branch with the URI
field missing fails with the `KeyError` "DMARC Aggregate Report URIs"
raised inside the record construction (so that field, skipped by the
preliminary `ruaMatches` test when DMARC is invalid, is still read
there); and the CLI row loop aborts at the first failing row, propagating
that error instead of silently skipping the row. -/
theorem missing_field_amended :
    (∀ (s : TrustymailDict.DState) (row : List (String × Option CellVal)),
      s.domains = [] →
      (∀ p ∈ row, isStrOrNone p.2 = true) →
      row.find? (fun p => p.1 == "Valid DMARC") = none →
      TrustymailDict.parse_rowE s row = Except.error "Valid DMARC") ∧
    (TrustymailDict.parse_rowE (TrustymailDict.init [])
        rowDmarcInvalidMissingURIs =
      Except.error "DMARC Aggregate Report URIs") ∧
    (∀ (s : TrustymailDict.DState) (r : List (String × Option CellVal))
        (rest : List (List (String × Option CellVal))) (e : String),
      TrustymailDict.parse_rowE s r = Except.error e →
      TrustymailDict.runRowsE s (r :: rest) = Except.error e) := by
  refine ⟨?_, by decide, ?_⟩
  · intro s row hd hw hm
    unfold TrustymailDict.parse_rowE
    rw [hd]
    simp [convert_booleans_of_strOrNone row hw,
      dictGet_convertRowSpec_error row _ hm, Bind.bind, Except.bind,
      pure, Except.pure]
  · intro s r rest e h
    unfold TrustymailDict.runRowsE
    rw [h]
    rfl

/-- Witness for claim C4 at a concrete row missing "Valid DMARC". -/
theorem missing_field_amended_witness :
    ((TrustymailDict.init []).domains = [] ∧
      (∀ p ∈ rowMissingVD, isStrOrNone p.2 = true) ∧
      rowMissingVD.find? (fun p => p.1 == "Valid DMARC") = none) ∧
    TrustymailDict.parse_rowE (TrustymailDict.init []) rowMissingVD =
      Except.error "Valid DMARC" ∧
    TrustymailDict.runRowsE (TrustymailDict.init [])
        [rowMissingVD, rowMissingURIs] =
      Except.error "Valid DMARC" :=
  ⟨⟨rfl, by decide, by decide⟩,
    missing_field_amended.1 _ rowMissingVD rfl (by decide) (by decide),
    missing_field_amended.2.2 _ rowMissingVD [rowMissingURIs] _
      (missing_field_amended.1 _ rowMissingVD rfl (by decide) (by decide))⟩

/-- Claim C5: `ruaMatches` is true exactly when DMARC is valid and some
element of the comma-split URI list equals the fixed address
"mailto:reports@dmarc.cyber.dhs.gov" after stripping and lower-casing;
when DMARC is invalid it is false; and a list containing
" Mailto:Reports@DMARC.cyber.dhs.gov " (mixed case, padded) matches. -/
theorem rua_match_characterization :
    (∀ r : TrustymailRow,
      Trustymail.valid_dmarc_bod1801_rua_url r = true ↔
        (Trustymail.valid_dmarc r = true ∧
          ∃ u ∈ pySplitComma r.dmarcAggregateReportURIs,
            pyLower (pyStrip u) = Trustymail.bod_rua_url)) ∧
    (∀ r : TrustymailRow, Trustymail.valid_dmarc r = false →
      Trustymail.valid_dmarc_bod1801_rua_url r = false) ∧
    Trustymail.valid_dmarc_bod1801_rua_url mixedCaseRuaRow = true := by
  refine ⟨?_, ?_, by decide⟩
  · intro r
    unfold Trustymail.valid_dmarc_bod1801_rua_url Trustymail.rua_urls
    by_cases h : Trustymail.valid_dmarc r = true
    · rw [if_pos h]
      rw [contains_map_iff]
      simp [h]
    · rw [if_neg h]
      simp only [Bool.not_eq_true] at h
      simp [h]
  · intro r h
    unfold Trustymail.valid_dmarc_bod1801_rua_url
    rw [h]
    simp

/-- Witness for claim C5 at a row whose DMARC validity fields are false. -/
theorem rua_match_characterization_witness :
    Trustymail.valid_dmarc noDmarcRow = false ∧
    Trustymail.valid_dmarc_bod1801_rua_url noDmarcRow = false :=
  ⟨by decide, rua_match_characterization.2.1 noDmarcRow (by decide)⟩

/-- Claim C6 counterexample: feeding the Scenario C row to the same
scorer instance a second time with no state reset does not reproduce the
single-run counters (they double instead). -/
theorem scorer_second_pass_counterexample :
    ¬ ((TrustymailReport.parse_rows
        (TrustymailReport.parse_rows (TrustymailReport.init []) [scenarioCRow])
        [scenarioCRow]).counts =
      (TrustymailReport.parse_rows (TrustymailReport.init [])
        [scenarioCRow]).counts) := by
  decide

/-- Claim C6 as amended: a run's counter increments depend only on the
rows, so feeding the same row sequence a second time to the same instance
adds exactly the same increments again — every counter is the pointwise
double of the single-run value — and identical counters to a single run
are obtained only by resetting to a fresh instance between runs. -/
theorem scorer_second_pass_doubles (domains : List String)
    (rows : List TrustymailRow) :
    (TrustymailReport.parse_rows
        (TrustymailReport.parse_rows (TrustymailReport.init domains) rows)
        rows).counts =
      addCounters
        (TrustymailReport.parse_rows (TrustymailReport.init domains)
          rows).counts
        (TrustymailReport.parse_rows (TrustymailReport.init domains)
          rows).counts := by
  have h1 := parse_rows_counts_add rows
    (TrustymailReport.parse_rows (TrustymailReport.init domains) rows)
  rw [parse_rows_domains] at h1
  have h2 : (TrustymailReport.init domains).domains = domains.map pyLower :=
    rfl
  rw [h2] at h1
  have h3 : (⟨domains.map pyLower, Counters.zero, []⟩ :
      TrustymailReport.State) = TrustymailReport.init domains := rfl
  rw [h3] at h1
  exact h1

/-- Claim C7 counterexample: `convert_booleans` does modify the caller's
mapping in place — after converting the one-entry row
`[("Live", "true")]` the caller's dictionary holds the boolean
`True` and no longer equals the original mapping. -/
theorem convert_booleans_inplace_counterexample :
    convert_booleans [("Live", some (CellVal.str "true"))] =
      Except.ok ([("Live", some (CellVal.bool true))],
        [("Live", some (CellVal.bool true))]) ∧
    [("Live", some (CellVal.bool true))] ≠
      [("Live", some (CellVal.str "true"))] := by
  decide

/-- Claim C7 as amended: on a mapping of field name to raw string or
`None`, `convert_booleans` replaces exactly the non-`None` values equal to
"true"/"false" (case-insensitively, after trimming) by the corresponding
boolean, leaves `None` and all other strings unchanged, preserves the key
sequence, and raises on nothing — but it performs the conversion by
mutating the caller's mapping in place and returns that same mutated
mapping rather than a fresh copy. -/
theorem convert_booleans_contract :
    (∀ (row : List (String × Option CellVal)),
      (∀ p ∈ row, isStrOrNone p.2 = true) →
      convert_booleans row =
        Except.ok (convertRowSpec row, convertRowSpec row)) ∧
    (∀ (row : List (String × Option CellVal)),
      (convertRowSpec row).map Prod.fst = row.map Prod.fst) ∧
    (convertCellSpec none = none ∧
      ∀ s : String,
        convertCellSpec (some (CellVal.str s)) =
          (if pyLower (pyStrip s) == "true" then some (CellVal.bool true)
           else if pyLower (pyStrip s) == "false" then
             some (CellVal.bool false)
           else some (CellVal.str s))) := by
  refine ⟨convert_booleans_of_strOrNone, ?_, rfl, fun s => rfl⟩
  intro row
  simp [convertRowSpec]

/-- Witness for claim C7 at a three-entry row exercising an unrecognized
string, an ordinary string and a `None` value. -/
theorem convert_booleans_contract_witness :
    (∀ p ∈ [("Live", some (CellVal.str "Tru e")),
        ("Domain", some (CellVal.str "x.gov")),
        ("Empty", (none : Option CellVal))],
      isStrOrNone p.2 = true) ∧
    convert_booleans [("Live", some (CellVal.str "Tru e")),
        ("Domain", some (CellVal.str "x.gov")), ("Empty", none)] =
      Except.ok
        (convertRowSpec [("Live", some (CellVal.str "Tru e")),
          ("Domain", some (CellVal.str "x.gov")), ("Empty", none)],
         convertRowSpec [("Live", some (CellVal.str "Tru e")),
          ("Domain", some (CellVal.str "x.gov")), ("Empty", none)]) :=
  ⟨by decide, convert_booleans_contract.1 _ (by decide)⟩

/-- Claim C8: the HTTPS result store keeps exactly one entry per
lower-cased domain — key distinctness is preserved by any run, so case
variants of a domain can never create duplicate entries — and when a
domain recurs the stored result is the one computed from the last
accepted row; concretely, rows for "Foo.GOV" then "foo.gov" leave the
single entry for "foo.gov" holding the later row's scores. -/
theorem https_store_unique_last_wins :
    (∀ (s : HTTPSReport.State) (rows : List HTTPSRow),
      ((s.results.map Prod.fst).Nodup) →
      (((HTTPSReport.parse_rows s rows).results.map Prod.fst).Nodup)) ∧
    (∀ (s : HTTPSReport.State) (rows : List HTTPSRow) (r : HTTPSRow),
      HTTPSReport.includedB s.domains r = true →
      lookupStore (HTTPSReport.parse_rows s (rows ++ [r])).results
          (pyLower r.domain) =
        some (HTTPSReport.score_row r)) ∧
    (HTTPSReport.parse_rows (HTTPSReport.init [])
        [caseRowUpper, caseRowLower]).results
      = [("foo.gov", HTTPSReport.score_row caseRowLower)] := by
  refine ⟨https_parse_rows_nodup, ?_, by decide⟩
  intro s rows r h
  rw [show HTTPSReport.parse_rows s (rows ++ [r])
      = HTTPSReport.parse_row (HTTPSReport.parse_rows s rows) r from by
    rw [HTTPSReport.parse_rows, List.foldl_append, List.foldl_cons,
      List.foldl_nil]
    rfl]
  have hinc : HTTPSReport.includedB
      (HTTPSReport.parse_rows s rows).domains r = true := by
    rw [https_parse_rows_domains]
    exact h
  rw [https_parse_row_included _ r hinc]
  exact lookupStore_storeUpdate_self _ (pyLower r.domain) _

/-- Witness for claim C8 at the concrete case-variant rows with a
non-empty filter. -/
theorem https_store_unique_last_wins_witness :
    HTTPSReport.includedB (HTTPSReport.init ["Foo.GOV"]).domains caseRowLower
        = true ∧
    lookupStore (HTTPSReport.parse_rows (HTTPSReport.init ["Foo.GOV"])
        ([caseRowUpper] ++ [caseRowLower])).results
        (pyLower caseRowLower.domain) =
      some (HTTPSReport.score_row caseRowLower) :=
  ⟨by decide,
    https_store_unique_last_wins.2.1 (HTTPSReport.init ["Foo.GOV"])
      [caseRowUpper] caseRowLower (by decide)⟩

/-- Claim C9: the superseded compliance test of `pshtt.py` —
`(SupportsHTTPS ∨ fallback) ∧ (EnforcesHTTPS ∨ fallback) ∧
(UsesStrongHSTS ∨ fallback)` — classifies a record as compliant exactly
when the current scorer's overall score
`(SupportsHTTPS ∧ EnforcesHTTPS ∧ UsesStrongHSTS) ∨ fallback` is true,
for every record. -/
theorem pshtt_equiv_https_overall (r : HTTPSRow) :
    Pshtt.compliant r = HTTPSReport.bod_web_compliance r := by
  obtain ⟨d, l, p, su, e, h⟩ := r
  simp only [Pshtt.compliant, Pshtt.domain_uses_https,
    Pshtt.domain_enforces_https, Pshtt.domain_uses_strong_hsts,
    Pshtt.domain_fallback_check, HTTPSReport.bod_web_compliance,
    HTTPSReport.domain_fallback_check]
  cases l <;> cases p <;> cases su <;> cases e <;> cases h <;> rfl

/-- Claim C10: constructing the superseded
`parsers/trustymail_report.py TrustymailReport` raises `AttributeError`
for every `domains` argument, because `__init__` reads
`self.__bod_rua_url` (in the "invalid_rua" bucket title) before that
attribute is assigned. -/
theorem parsers_trustymail_init_raises (domains : Option (List String)) :
    ParsersTrustymail.initE domains = Except.error "AttributeError" := rfl

end BodDiagnostics
